import Mathlib

/-!
# Verification of the startup-evaluator pipeline

A shallow embedding, in Lean 4, of the parts of the `startup-evaluator`
repository (src/models.py, src/model_config.py, src/config.py,
src/prompts.py, src/evaluator.py) that the specification's claims are
about, together with proofs settling each claim.

Conventions of the embedding:
* Python strings become `String`; `None`-able strings become `Option String`.
* Python dicts that the code only builds and reads by key become
  association lists `List (key × value)` in insertion order.
* The mutable usage counters on `StartupEvaluator` become an explicit
  `UsageCounters` value threaded through `evaluate`.
* LLM backend calls are external effects; they enter the model as
  explicit arguments (`AgentResult` values, or an attempt-indexed outcome
  function for the retry wrapper).
* Logging is modelled as a returned `List String` of warning events;
  raised exceptions as `Except`.
-/

/-! ## Python value model

`PitchDeckInfo.model_dump()` (pydantic v2, python mode) yields, per field,
either a `str`, an `Estagio` enum member, or `None`.  `PyVal` captures the
three cases together with the operations the source applies to them:
truthiness, `str(...)`, `== "indefinido"`, and f-string rendering.
-/

/-- `models.Estagio`: the `str`-mixin enum of investment stages. -/
inductive Estagio where
  | pre_seed
  | seed
  | series_a
  | indefinido
deriving DecidableEq, Repr

/-- The `str` value of an `Estagio` member (`Estagio.PRE_SEED.value`, etc.). -/
def Estagio.val : Estagio → String
  | .pre_seed => "pre_seed"
  | .seed => "seed"
  | .series_a => "series_a"
  | .indefinido => "indefinido"

/-- The member name of an `Estagio` member (`Estagio.PRE_SEED.name`, etc.). -/
def Estagio.memberName : Estagio → String
  | .pre_seed => "PRE_SEED"
  | .seed => "SEED"
  | .series_a => "SERIES_A"
  | .indefinido => "INDEFINIDO"

/-- A value appearing in `PitchDeckInfo.model_dump()`: a plain string, an
`Estagio` enum member (pydantic keeps enum members in python-mode dumps),
or Python `None`. -/
inductive PyVal where
  | str (s : String)
  | enumE (e : Estagio)
  | pyNone
deriving DecidableEq, Repr

/-- Python truthiness of a dumped value (`if value:`).  A `str`-mixin enum
member is truthy through `str.__len__`; every `Estagio` value is a
non-empty string, so members are always truthy. -/
def PyVal.truthy : PyVal → Bool
  | .str s => !(s == "")
  | .enumE e => !(e.val == "")
  | .pyNone => false

/-- Python `str(value)`.  For a `str`-mixin enum member the enum metaclass
installs `Enum.__str__`, so `str(Estagio.INDEFINIDO)` is the member form
`"Estagio.INDEFINIDO"`, not the value `"indefinido"` (true on every
CPython 3.x the repository can run on). -/
def PyVal.pyStr : PyVal → String
  | .str s => s
  | .enumE e => "Estagio." ++ e.memberName
  | .pyNone => "None"

/-- Python `value == t` for a string literal `t`.  A `str`-mixin enum member
compares through `str.__eq__`, i.e. by its `str` value; `None` is never
equal to a string. -/
def PyVal.eqString (v : PyVal) (t : String) : Bool :=
  match v with
  | .str s => s == t
  | .enumE e => e.val == t
  | .pyNone => false

/-- f-string rendering of a dumped value.  For an `Estagio` member the
result depends on the Python minor version (`"pre_seed"` before 3.11,
`"Estagio.PRE_SEED"` from 3.11): neither form is empty or the literal
`"indefinido"`, so every theorem below is insensitive to the choice; we
use the `str` value. -/
def PyVal.fstr : PyVal → String
  | .str s => s
  | .enumE e => e.val
  | .pyNone => "None"

/-- Python `s.lower()` (character-wise lowercasing; the strings it is
applied to are ASCII).  Defined over the character list so that it
reduces inside the kernel. -/
def pyLower (s : String) : String := ⟨s.data.map Char.toLower⟩

/-! ## models.py -/

/-- `models.PitchDeckInfo`: the facts extracted from a pitch deck.
`nome_startup` and `localizacao` are required strings, `estagio` a
required `Estagio`, and the remaining thirteen fields optional strings,
in this declaration order. -/
structure PitchDeckInfo where
  nome_startup : String
  localizacao : String
  estagio : Estagio
  receita_anual : Option String := none
  tamanho_rodada : Option String := none
  valuation_pre_money : Option String := none
  crescimento_anual : Option String := none
  produto_descricao : Option String := none
  tracao_metricas : Option String := none
  equipe_fundadores : Option String := none
  clientes_atuais : Option String := none
  modelo_negocio : Option String := none
  mercado_tamanho : Option String := none
  diferencial_competitivo : Option String := none
  cap_table : Option String := none
  outras_informacoes : Option String := none
deriving DecidableEq, Repr

/-- Lift an `Optional[str]` field to its dumped value. -/
def optVal : Option String → PyVal
  | none => .pyNone
  | some s => .str s

/-- `info.model_dump().items()`: the `(field name, value)` pairs of a
`PitchDeckInfo`, in field declaration order. -/
def modelDump (info : PitchDeckInfo) : List (String × PyVal) :=
  [ ("nome_startup", .str info.nome_startup),
    ("localizacao", .str info.localizacao),
    ("estagio", .enumE info.estagio),
    ("receita_anual", optVal info.receita_anual),
    ("tamanho_rodada", optVal info.tamanho_rodada),
    ("valuation_pre_money", optVal info.valuation_pre_money),
    ("crescimento_anual", optVal info.crescimento_anual),
    ("produto_descricao", optVal info.produto_descricao),
    ("tracao_metricas", optVal info.tracao_metricas),
    ("equipe_fundadores", optVal info.equipe_fundadores),
    ("clientes_atuais", optVal info.clientes_atuais),
    ("modelo_negocio", optVal info.modelo_negocio),
    ("mercado_tamanho", optVal info.mercado_tamanho),
    ("diferencial_competitivo", optVal info.diferencial_competitivo),
    ("cap_table", optVal info.cap_table),
    ("outras_informacoes", optVal info.outras_informacoes) ]

/-- `models.CriterioAvaliado`: one evaluated criterion with evidence. -/
structure CriterioAvaliado where
  atendido : Bool
  evidencia_encontrada : String
deriving DecidableEq, Repr

/-- `models.CriteriosAtendidos`: the five criteria evaluated by the model. -/
structure CriteriosAtendidos where
  localizacao : CriterioAvaliado
  estagio_adequado : CriterioAvaliado
  metricas_financeiro : CriterioAvaliado
  produto_tracao : CriterioAvaliado
  equipe : CriterioAvaliado
deriving DecidableEq, Repr

/-- `models.AvaliacaoStartup`: the structured evaluation result
(`nota` is constrained to 0..5 by pydantic; the claims only need it to be
a natural number). -/
structure AvaliacaoStartup where
  analise_preliminar : String
  nota : Nat
  estagio_identificado : Estagio
  justificativa : String
  pontos_positivos : List String
  pontos_negativos : List String
  criterios_atendidos : CriteriosAtendidos
deriving DecidableEq, Repr

/-! ## evaluator.py — extraction-quality check (`_validate_extraction`) -/

/-- The sentinel strings of `StartupEvaluator._validate_extraction`:
`["indefinido", "desconhecido", "null", "none"]`. -/
def sentinels : List String := ["indefinido", "desconhecido", "null", "none"]

/-- The local `has_name` of `_validate_extraction`:
`info.nome_startup and info.nome_startup.lower() not in sentinels`. -/
def has_name (info : PitchDeckInfo) : Bool :=
  !(info.nome_startup == "") && !(sentinels.contains (pyLower info.nome_startup))

/-- The per-field test of `_validate_extraction`'s counting loop:
`value and str(value).lower() not in sentinels`. -/
def filledCond (v : PyVal) : Bool :=
  v.truthy && !(sentinels.contains (pyLower v.pyStr))

/-- `StartupEvaluator._validate_extraction`: valid name and at least 3
filled fields, counting over **all** of `model_dump().items()`. -/
def validate_extraction (info : PitchDeckInfo) : Bool :=
  let filled_fields := ((modelDump info).filter (fun p => filledCond p.2)).length
  has_name info && decide (3 ≤ filled_fields)

/-! ### Spec-side counting for the extraction-quality claim

The specification describes the quality boundary in terms of the
**non-name** fields holding a non-sentinel value.  The definitions below
follow the spec's words (a refinement comparison point, not a translation
of the source): a field "holds a non-sentinel value" when it is non-empty
and its value, lowercased, is not in the sentinel list; the `estagio`
field is taken at its enum *value* (e.g. `"indefinido"`). -/

/-- Spec reading: does an optional string field hold a non-sentinel value? -/
def specFilled (v : Option String) : Bool :=
  match v with
  | none => false
  | some s => !(s == "") && !(sentinels.contains (pyLower s))

/-- Spec reading: the non-name field values of a facts record, the stage
taken at its enum value. -/
def specNonNameValues (info : PitchDeckInfo) : List (Option String) :=
  [ some info.localizacao,
    some info.estagio.val,
    info.receita_anual,
    info.tamanho_rodada,
    info.valuation_pre_money,
    info.crescimento_anual,
    info.produto_descricao,
    info.tracao_metricas,
    info.equipe_fundadores,
    info.clientes_atuais,
    info.modelo_negocio,
    info.mercado_tamanho,
    info.diferencial_competitivo,
    info.cap_table,
    info.outras_informacoes ]

/-- Spec reading: how many non-name fields hold a non-sentinel value. -/
def specNonNameFilledCount (info : PitchDeckInfo) : Nat :=
  ((specNonNameValues info).filter specFilled).length

/-! ## evaluator.py — prompt summary (`_format_pdf_info`) -/

/-- Python `str.title()` restricted to its behaviour on alphabetic runs:
the first letter of each run is uppercased, later letters lowercased,
non-letters reset the run (the field names this is applied to are ASCII
letters and spaces). -/
def pyTitleGo : Bool → List Char → List Char
  | _, [] => []
  | prevAlpha, c :: cs =>
    if c.isAlpha then
      (if prevAlpha then c.toLower else c.toUpper) :: pyTitleGo true cs
    else
      c :: pyTitleGo false cs

/-- Python `s.title()`. -/
def pyTitle (s : String) : String := ⟨pyTitleGo false s.data⟩

/-- Python `s.replace('_', ' ')` (single-character pattern, so it is
character-wise).  Defined over the character list so that it reduces
inside the kernel. -/
def underscoreToSpace (s : String) : String :=
  ⟨s.data.map (fun c => if c = '_' then ' ' else c)⟩

/-- The label of one rendered line:
`field_name.replace('_', ' ').title()`. -/
def fieldLabel (field_name : String) : String :=
  pyTitle (underscoreToSpace field_name)

/-- One iteration of `_format_pdf_info`'s loop: render the field when
`field_value and field_value != "indefinido"`. -/
def renderField (p : String × PyVal) : Option String :=
  if p.2.truthy && !(p.2.eqString "indefinido") then
    some ("  - " ++ fieldLabel p.1 ++ ": " ++ p.2.fstr)
  else
    none

/-- The list `lines` accumulated by `StartupEvaluator._format_pdf_info`. -/
def formatLines (info : PitchDeckInfo) : List String :=
  (modelDump info).filterMap renderField

/-- `StartupEvaluator._format_pdf_info`:
`"\n".join(lines) if lines else "  - Nenhuma informação extraída"`. -/
def format_pdf_info (info : PitchDeckInfo) : String :=
  if formatLines info = [] then "  - Nenhuma informação extraída"
  else String.intercalate "\n" (formatLines info)

/-! ## evaluator.py — rasterization (`_pdf_to_images`)

The document is abstract: a list of pages of any type `α`, with the
rendering step (`page.get_pixmap(...).tobytes("png")`) an abstract
function `render : α → β`.  The loop
`for page_num in range(min(len(doc), max_pages)): images.append(render(doc[page_num]))`
becomes `List.ofFn` over `Fin (min doc.length max_pages)`. -/

/-- `StartupEvaluator._pdf_to_images` (default `max_pages = 10`). -/
def pdf_to_images {α β : Type} (render : α → β) (doc : List α)
    (max_pages : Nat := 10) : List β :=
  List.ofFn (fun i : Fin (min doc.length max_pages) =>
    render (doc.get ⟨i, lt_of_lt_of_le i.isLt (Nat.min_le_left _ _)⟩))

/-! ## model_config.py -/

/-- `model_config.ModelPricing`: prices per 1M tokens.  The source stores
US dollars as floats; all of them are exact multiples of $0.001, so the
embedding stores thousandths of a dollar as naturals
(e.g. `75` stands for `$0.075`). -/
structure ModelPricing where
  input_per_million_milli : Nat
  output_per_million_milli : Nat
deriving DecidableEq, Repr

/-- `model_config.ModelConfig`.  The dataclass declares exactly these
fields; in particular it has **no** `temperature`, `top_p` or `seed`
attribute (see the note at `mkStartupEvaluator`). -/
structure ModelConfig where
  name : String
  provider : String
  model_string : String
  env_var : String
  pricing : ModelPricing
  supports_pdf : Bool := true
  description : String := ""
deriving DecidableEq, Repr

/-- The `"gemini-flash"` entry of `AVAILABLE_MODELS`. -/
def gemini_flash : ModelConfig :=
  { name := "Gemini 2.5 Flash", provider := "gemini",
    model_string := "google-gla:gemini-2.5-flash", env_var := "GEMINI_API_KEY",
    pricing := ⟨75, 300⟩, supports_pdf := true,
    description := "Rápido e econômico. Bom para análise de PDFs." }

/-- The `"gemini-pro"` entry of `AVAILABLE_MODELS`. -/
def gemini_pro : ModelConfig :=
  { name := "Gemini 2.5 Pro", provider := "gemini",
    model_string := "google-gla:gemini-2.5-pro", env_var := "GEMINI_API_KEY",
    pricing := ⟨1250, 5000⟩, supports_pdf := true,
    description := "Mais capaz, melhor raciocínio. Mais caro." }

/-- The `"gemini-3"` entry of `AVAILABLE_MODELS`. -/
def gemini_3 : ModelConfig :=
  { name := "Gemini 3 Pro", provider := "gemini",
    model_string := "google-gla:gemini-3-pro", env_var := "GEMINI_API_KEY",
    pricing := ⟨2000, 12000⟩, supports_pdf := true,
    description := "Modelo mais avançado do Google. Contexto de até 2M tokens." }

/-- The `"gpt-5-mini"` entry of `AVAILABLE_MODELS`. -/
def gpt_5_mini : ModelConfig :=
  { name := "GPT-5 Mini", provider := "openai",
    model_string := "openai:gpt-5-mini", env_var := "OPENAI_API_KEY",
    pricing := ⟨250, 2000⟩, supports_pdf := false,
    description := "Modelo intermediário da OpenAI. Equilibrado em custo e capacidade." }

/-- The `"gpt-5-nano"` entry of `AVAILABLE_MODELS`. -/
def gpt_5_nano : ModelConfig :=
  { name := "GPT-5 Nano", provider := "openai",
    model_string := "openai:gpt-5-nano", env_var := "OPENAI_API_KEY",
    pricing := ⟨50, 400⟩, supports_pdf := false,
    description := "Versão mais econômica do GPT-5. Rápido e barato." }

/-- `model_config.AVAILABLE_MODELS`, in insertion order. -/
def AVAILABLE_MODELS : List (String × ModelConfig) :=
  [ ("gemini-flash", gemini_flash),
    ("gemini-pro", gemini_pro),
    ("gemini-3", gemini_3),
    ("gpt-5-mini", gpt_5_mini),
    ("gpt-5-nano", gpt_5_nano) ]

/-- `model_config.DEFAULT_MODEL`. -/
def DEFAULT_MODEL : String := "gemini-flash"

/-- `model_config.get_model_config`: raises `ValueError` for an unknown
model name. -/
def get_model_config (model_name : String) : Except String ModelConfig :=
  match AVAILABLE_MODELS.lookup model_name with
  | some config => .ok config
  | none => .error ("ValueError: Modelo não encontrado: " ++ model_name)

/-! ## config.py -/

/-- `config.LOCATION`. -/
def LOCATION : String := "Brasil"

/-- `config.NOTA_DESCRICOES`: score descriptions, keyed 0..5. -/
def NOTA_DESCRICOES : List (Nat × String) :=
  [ (0, "Descartável - não atende critérios básicos"),
    (1, "Muito fraca - poucos pontos positivos"),
    (2, "Fraca - alguns pontos, mas gaps significativos"),
    (3, "Mediana - potencial, mas precisa de mais validação"),
    (4, "Forte - atende maioria dos critérios, vale conversar"),
    (5, "Excepcional - prioridade máxima, agendar reunião") ]

/-! ## prompts.py -/

/-- The three prompt classes of prompts.py (`PromptV1`, `PromptV2`,
`PromptAstella`).  The claims are about which class a version name
resolves to, so the classes are represented by name. -/
inductive PromptSet where
  | promptV1
  | promptV2
  | promptAstella
deriving DecidableEq, Repr

/-- `prompts.PROMPT_VERSIONS`: the version registry, in insertion order.
Both `"v3"` and `"astella"` map to `PromptAstella`. -/
def PROMPT_VERSIONS : List (String × PromptSet) :=
  [ ("v1", .promptV1),
    ("v2", .promptV2),
    ("v3", .promptAstella),
    ("astella", .promptAstella) ]

/-- `prompts.DEFAULT_PROMPT_VERSION`. -/
def DEFAULT_PROMPT_VERSION : String := "v2"

/-- `prompts.get_prompts(version=None)`:
falsy version falls back to the default, then
`PROMPT_VERSIONS.get(version.lower(), PROMPT_VERSIONS[DEFAULT_PROMPT_VERSION])`.
The final `.promptV2` arm is the value of
`PROMPT_VERSIONS[DEFAULT_PROMPT_VERSION]` and is unreachable because
`"v2"` is registered. -/
def get_prompts (version : Option String := none) : PromptSet :=
  let v := match version with
    | none => DEFAULT_PROMPT_VERSION
    | some s => if s == "" then DEFAULT_PROMPT_VERSION else s
  match PROMPT_VERSIONS.lookup (pyLower v) with
  | some p => p
  | none =>
    match PROMPT_VERSIONS.lookup DEFAULT_PROMPT_VERSION with
    | some p => p
    | none => .promptV2

/-- The astella (v3) score-band table, read off the text of
`PromptAstella.SCORING_CRITERIA` ("ESCALA DE PONTUAÇÃO FINAL") and
repeated in `PromptAstella.EVALUATION_INSTRUCTIONS` (PASSO 3):
`> 220 → 5`, `180-219 → 4`, `140-179 → 3`, `90-139 → 2`, `40-89 → 1`,
`< 40 → 0`.  The total is an integer (the modifiers subtract points); a
total covered by no listed band maps to `none`. -/
def notaFromPontos (pontos : Int) : Option Nat :=
  if 220 < pontos then some 5
  else if 180 ≤ pontos ∧ pontos ≤ 219 then some 4
  else if 140 ≤ pontos ∧ pontos ≤ 179 then some 3
  else if 90 ≤ pontos ∧ pontos ≤ 139 then some 2
  else if 40 ≤ pontos ∧ pontos ≤ 89 then some 1
  else if pontos < 40 then some 0
  else none

/-! ## evaluator.py — usage tracking -/

/-- The mutable usage totals of a `StartupEvaluator`
(`_total_input_tokens`, `_total_output_tokens`, `_total_requests`). -/
structure UsageCounters where
  input_tokens : Nat
  output_tokens : Nat
  requests : Nat
deriving DecidableEq, Repr

/-- The usage object returned by `result.usage()` (pydantic-ai); each
counter may be absent (`None`), which `_track_usage` reads as 0. -/
structure RunUsage where
  input_tokens : Option Nat := none
  output_tokens : Option Nat := none
  requests : Option Nat := none
deriving DecidableEq, Repr

/-- `StartupEvaluator._track_usage`: skips a `None` usage object, else
adds each counter, reading an absent counter as 0 (`usage.input_tokens or 0`). -/
def track_usage (s : UsageCounters) (usage : Option RunUsage) : UsageCounters :=
  match usage with
  | none => s
  | some u =>
    { input_tokens := s.input_tokens + u.input_tokens.getD 0,
      output_tokens := s.output_tokens + u.output_tokens.getD 0,
      requests := s.requests + u.requests.getD 0 }

/-- `StartupEvaluator.reset_usage`: zeroes the totals whatever they were. -/
def reset_usage (_ : UsageCounters) : UsageCounters :=
  { input_tokens := 0, output_tokens := 0, requests := 0 }

/-- `evaluator.UsageInfo`: the derived read-out of `get_usage`. -/
structure UsageInfo where
  input_tokens : Nat
  output_tokens : Nat
  total_tokens : Nat
  requests : Nat
  model_name : String
deriving DecidableEq, Repr

/-! ## evaluator.py — the evaluator object -/

/-- The configuration part of a constructed `StartupEvaluator` (the
mutable usage totals are threaded separately as `UsageCounters`). -/
structure StartupEvaluator where
  extraction_config : ModelConfig
  evaluation_config : ModelConfig
  extraction_model_name : String
  evaluation_model_name : String
  prompt_version : String
  prompts : PromptSet
deriving DecidableEq, Repr

/-- `StartupEvaluator.get_usage`. -/
def get_usage (ev : StartupEvaluator) (s : UsageCounters) : UsageInfo :=
  { input_tokens := s.input_tokens,
    output_tokens := s.output_tokens,
    total_tokens := s.input_tokens + s.output_tokens,
    requests := s.requests,
    model_name := ev.extraction_config.name ++ " / " ++ ev.evaluation_config.name }

/-- Is the credential for a resolved config absent?
`api_key = os.getenv(config.env_var); if not api_key:` — the check fires
when the variable is unset (`None`) or set to the empty string. -/
def credMissing (env : String → Option String) (config : ModelConfig) : Bool :=
  match env config.env_var with
  | none => true
  | some s => s == ""

/-- `StartupEvaluator.__init__`, up to the construction of the two
agents: resolve both model configs (`ValueError` on an unknown name),
load the prompt set, then check `os.getenv(config.env_var)` for the
extraction config and the evaluation config in that order, raising
`ValueError` on the first absent credential.

Note: after this check the source builds generation-settings dicts from
`config.temperature`, `config.top_p` and `config.seed`
(evaluator.py lines 81-94) — attributes the `ModelConfig` dataclass does
not declare.  That latent `AttributeError` is independent of the
credential logic the claims are about and is not modelled. -/
def mkStartupEvaluator (env : String → Option String)
    (extraction_model : String := DEFAULT_MODEL)
    (evaluation_model : String := DEFAULT_MODEL)
    (prompt_version : String := DEFAULT_PROMPT_VERSION) :
    Except String StartupEvaluator := do
  let extraction_config ← get_model_config extraction_model
  let evaluation_config ← get_model_config evaluation_model
  let prompts := get_prompts (some prompt_version)
  if credMissing env extraction_config then
    .error ("ValueError: " ++ extraction_config.env_var ++ " não encontrada.")
  else if credMissing env evaluation_config then
    .error ("ValueError: " ++ evaluation_config.env_var ++ " não encontrada.")
  else
    .ok { extraction_config, evaluation_config,
          extraction_model_name := extraction_model,
          evaluation_model_name := evaluation_model,
          prompt_version, prompts }

/-! ## evaluator.py — consistency check and full pipeline -/

/-- The number of satisfied critical criteria
(`localizacao`, `estagio_adequado`, `metricas_financeiro`) counted by
`_validate_evaluation_consistency`. -/
def atendidosCriticos (a : AvaliacaoStartup) : Nat :=
  ([ a.criterios_atendidos.localizacao,
     a.criterios_atendidos.estagio_adequado,
     a.criterios_atendidos.metricas_financeiro ].filter
       (fun c => c.atendido)).length

/-- `StartupEvaluator._validate_evaluation_consistency`: a log-only pass.
It returns the list of warning events it logs (the source returns `None`
and never raises); interpolated values are elided from the messages. -/
def validate_evaluation_consistency (prompt_version : String)
    (avaliacao : AvaliacaoStartup) : List String :=
  let w1 :=
    if !avaliacao.criterios_atendidos.localizacao.atendido
        && decide (0 < avaliacao.nota) && (prompt_version == "v1") then
      ["Inconsistência detectada (V1): startup fora do Brasil com nota positiva."]
    else []
  let w2 :=
    if decide (4 ≤ avaliacao.nota) && decide (atendidosCriticos avaliacao < 2) then
      ["Inconsistência detectada: nota alta com menos de 2 critérios críticos atendidos."]
    else []
  w1 ++ w2

/-- The value and usage of one agent call
(`result.output` and `result.usage()`). -/
structure AgentResult (α : Type) where
  output : α
  usage : Option RunUsage := none

/-- The dict returned by `StartupEvaluator.evaluate`:
`avaliacao.model_dump()` plus the added keys.  The `usage` sub-dict is
kept as an association list to record exactly which keys it carries. -/
structure ResultRecord where
  avaliacao : AvaliacaoStartup
  nota_descricao : String
  pdf_info_extracted : PitchDeckInfo
  extraction_model : String
  evaluation_model : String
  prompt_version : String
  usage : List (String × Nat)

/-- Everything observable about one `evaluate` call: the returned dict,
the evaluator's usage totals after the call, and the consistency
warnings logged during it. -/
structure EvaluateOutcome where
  record : ResultRecord
  counters : UsageCounters
  warnings : List String

/-- `StartupEvaluator.evaluate`, with the two backend stages supplied as
explicit results: `reset_usage()`; extraction (one agent call, usage
tracked, plus the advisory `_validate_extraction` log); evaluation (one
agent call, usage tracked); `_validate_evaluation_consistency`; then the
result dict is assembled around `get_usage()`. -/
def evaluate (ev : StartupEvaluator) (s0 : UsageCounters)
    (extraction_result : AgentResult PitchDeckInfo)
    (evaluation_result : AgentResult AvaliacaoStartup) : EvaluateOutcome :=
  let s1 := reset_usage s0
  let s2 := track_usage s1 extraction_result.usage
  let pdf_info := extraction_result.output
  let s3 := track_usage s2 evaluation_result.usage
  let avaliacao := evaluation_result.output
  let warnings := validate_evaluation_consistency ev.prompt_version avaliacao
  let usage := get_usage ev s3
  { record :=
      { avaliacao,
        nota_descricao := (NOTA_DESCRICOES.lookup avaliacao.nota).getD "Desconhecida",
        pdf_info_extracted := pdf_info,
        extraction_model := ev.extraction_config.name,
        evaluation_model := ev.evaluation_config.name,
        prompt_version := ev.prompt_version,
        usage :=
          [ ("input_tokens", usage.input_tokens),
            ("output_tokens", usage.output_tokens),
            ("total_tokens", usage.total_tokens),
            ("requests", usage.requests) ] },
    counters := s3,
    warnings }

/-! ## evaluator.py — retry wrapper (`_run_agent_sync`)

The decorator is
`@retry(stop=stop_after_attempt(3), wait=wait_exponential(multiplier=1, min=4, max=10), reraise=True)`.
The decorated body is abstracted as a function from the attempt number
(1-based, tenacity's `attempt_number`) to that attempt's outcome. -/

/-- tenacity `wait_exponential(multiplier, min, max)` at a 1-based attempt
number: `max(max(0, min), min(multiplier * 2 ** attempt_number, max))`
(`exp_base = 2`; the parameters used are the naturals 1, 4, 10). -/
def waitExponential (multiplier minW maxW : Nat) (attempt_number : Nat) : Nat :=
  max (max 0 minW) (min (multiplier * 2 ^ attempt_number) maxW)

/-- tenacity's retrying loop with `stop_after_attempt` semantics and
`reraise=True`: `remaining` attempts are still allowed starting at
1-based attempt `attempt`; on the last allowed attempt a failure is
re-raised unchanged. -/
def retryGo {ε α : Type} (f : Nat → Except ε α) : Nat → Nat → Except ε α
  | 0, attempt => f attempt
  | 1, attempt => f attempt
  | n + 2, attempt =>
    match f attempt with
    | .ok v => .ok v
    | .error _ => retryGo f (n + 1) (attempt + 1)

/-- The retry wrapper applied to `_run_agent_sync`:
`stop_after_attempt(3)`, starting at attempt 1. -/
def retryStopAfter3 {ε α : Type} (f : Nat → Except ε α) : Except ε α :=
  retryGo f 3 1

/-- One attempt of the body of `_run_agent_sync`:
`agent.run_sync(content, model_settings=...)` may succeed, raise
`TypeError`, or raise some other exception. -/
inductive CallOutcome (ε α : Type) where
  | ok (v : α)
  | typeError
  | err (e : ε)

/-- The body of `_run_agent_sync` on one attempt: a `TypeError` from the
settings-carrying call falls back to `agent.run_sync(content)` (whose
outcome is `fallback`); any other exception is logged and re-raised, so
it reaches the retry wrapper. -/
def runAgentBody {ε α : Type} (withSettings : CallOutcome ε α)
    (fallback : Except ε α) : Except ε α :=
  match withSettings with
  | .ok v => .ok v
  | .typeError => fallback
  | .err e => .error e

/-- `StartupEvaluator._run_agent_sync`: the retry wrapper around the
body, given each attempt's outcomes. -/
def run_agent_sync {ε α : Type}
    (attempts : Nat → CallOutcome ε α × Except ε α) : Except ε α :=
  retryStopAfter3 (fun n => runAgentBody (attempts n).1 (attempts n).2)

/-! ## Theorems -/

/-- C9: for every document and page cap, `_pdf_to_images` produces exactly
`min(number of pages, cap)` images, the i-th image being the rendering of
the i-th page (document page order); pages beyond the cap are dropped. -/
theorem pdf_to_images_cap {α β : Type} (render : α → β) (doc : List α)
    (max_pages : Nat) :
    (pdf_to_images render doc max_pages).length = min doc.length max_pages
    ∧ ∀ i : Nat, i < min doc.length max_pages →
        (pdf_to_images render doc max_pages).get? i = (doc.get? i).map render := by
  constructor
  · simp [pdf_to_images]
  · intro i hi
    have hdoc : i < doc.length := lt_of_lt_of_le hi (Nat.min_le_left _ _)
    rw [List.get?_eq_get hdoc]
    simp [pdf_to_images, List.get?_eq_get, hi]

/-- C9 witness: a 15-page document with the default cap of 10 yields
exactly 10 images, in page order (witnessed at page index 3). -/
theorem pdf_to_images_cap_witness :
    (pdf_to_images id (List.range 15) 10).length = min (List.range 15).length 10
    ∧ (pdf_to_images id (List.range 15) 10).get? 3 = ((List.range 15).get? 3).map id
    ∧ (pdf_to_images id (List.range 15) 10).length = 10 :=
  ⟨(pdf_to_images_cap id (List.range 15) 10).1,
   (pdf_to_images_cap id (List.range 15) 10).2 3 (by decide),
   by decide⟩

/-- C7: `get_prompts` resolves a version name by lowercased lookup in
`PROMPT_VERSIONS`; a name not registered there (up to that lowercasing)
falls back to the default version's prompt set (`"v2" ↦ PromptV2`)
instead of raising, while the registered names `v1`, `v2`, `v3` and
`astella` each resolve to their own class. -/
theorem get_prompts_fallback :
    (∀ v : String, PROMPT_VERSIONS.lookup (pyLower v) = none →
        get_prompts (some v) = .promptV2)
    ∧ PROMPT_VERSIONS.lookup DEFAULT_PROMPT_VERSION = some .promptV2
    ∧ get_prompts (some "v1") = .promptV1
    ∧ get_prompts (some "v2") = .promptV2
    ∧ get_prompts (some "v3") = .promptAstella
    ∧ get_prompts (some "astella") = .promptAstella := by
  refine ⟨?_, by decide, by decide, by decide, by decide, by decide⟩
  intro v h
  by_cases hv : v = ""
  · subst hv; decide
  · have hv' : (v == "") = false := by simpa using hv
    simp [get_prompts, hv', h]
    rfl

/-- C7 witness: the unregistered name `"v9"` resolves to the default
version's prompt set. -/
theorem get_prompts_fallback_witness :
    get_prompts (some "v9") = .promptV2 :=
  get_prompts_fallback.1 "v9" (by decide)

/-- C3 counterexample: the astella band table assigns no band to a raw
total of exactly 220 — the score-5 band starts strictly above 220 and the
score-4 band ends at 219 — so 220 does not map to score 4 as claimed. -/
theorem notaFromPontos_220_unassigned :
    notaFromPontos 220 = none ∧ notaFromPontos 220 ≠ some 4 := by decide

/-- C3 (amended): the astella score-band mapping is a pure function of
the raw total: strictly above 220 gives score 5, 180-219 gives 4,
140-179 gives 3, 90-139 gives 2, 40-89 gives 1, below 40 gives 0; in
particular 225 gives 5, 0 gives 0 and 255 gives 5 — but exactly 220 is
covered by no band (instead of mapping to score 4). -/
theorem notaFromPontos_bands :
    (∀ p : Int, 220 < p → notaFromPontos p = some 5)
    ∧ (∀ p : Int, 180 ≤ p → p ≤ 219 → notaFromPontos p = some 4)
    ∧ (∀ p : Int, 140 ≤ p → p ≤ 179 → notaFromPontos p = some 3)
    ∧ (∀ p : Int, 90 ≤ p → p ≤ 139 → notaFromPontos p = some 2)
    ∧ (∀ p : Int, 40 ≤ p → p ≤ 89 → notaFromPontos p = some 1)
    ∧ (∀ p : Int, p < 40 → notaFromPontos p = some 0)
    ∧ notaFromPontos 225 = some 5
    ∧ notaFromPontos 220 = none
    ∧ notaFromPontos 0 = some 0
    ∧ notaFromPontos 255 = some 5 := by
  refine ⟨?_, ?_, ?_, ?_, ?_, ?_, by decide, by decide, by decide, by decide⟩
  all_goals intro p
  · intro h
    rw [notaFromPontos, if_pos h]
  · intro h1 h2
    rw [notaFromPontos, if_neg (by omega), if_pos ⟨h1, h2⟩]
  · intro h1 h2
    rw [notaFromPontos, if_neg (by omega), if_neg (by omega), if_pos ⟨h1, h2⟩]
  · intro h1 h2
    rw [notaFromPontos, if_neg (by omega), if_neg (by omega), if_neg (by omega),
      if_pos ⟨h1, h2⟩]
  · intro h1 h2
    rw [notaFromPontos, if_neg (by omega), if_neg (by omega), if_neg (by omega),
      if_neg (by omega), if_pos ⟨h1, h2⟩]
  · intro h
    rw [notaFromPontos, if_neg (by omega), if_neg (by omega), if_neg (by omega),
      if_neg (by omega), if_neg (by omega), if_pos h]

/-- C3 witness: the band theorem evaluated at concrete totals, one per
band. -/
theorem notaFromPontos_bands_witness :
    notaFromPontos 230 = some 5 ∧ notaFromPontos 200 = some 4
    ∧ notaFromPontos 150 = some 3 ∧ notaFromPontos 100 = some 2
    ∧ notaFromPontos 50 = some 1 ∧ notaFromPontos 10 = some 0 :=
  ⟨notaFromPontos_bands.1 230 (by decide),
   notaFromPontos_bands.2.1 200 (by decide) (by decide),
   notaFromPontos_bands.2.2.1 150 (by decide) (by decide),
   notaFromPontos_bands.2.2.2.1 100 (by decide) (by decide),
   notaFromPontos_bands.2.2.2.2.1 50 (by decide) (by decide),
   notaFromPontos_bands.2.2.2.2.2.1 10 (by decide)⟩

/-- C4: the retry wrapper around `_run_agent_sync` makes at most 3
attempts (the outcome depends only on attempts 1-3); a body that fails on
attempts 1 and 2 and succeeds on attempt 3 yields the success with no
error; a body that fails on all 3 attempts re-raises the third exception
unchanged (`reraise=True`); and every between-attempt backoff delay of
`wait_exponential(multiplier=1, min=4, max=10)` lies between 4 and 10
units. -/
theorem run_agent_sync_retry {ε α : Type} :
    (∀ (attempts : Nat → CallOutcome ε α × Except ε α) (e1 e2 : ε) (v : α),
        runAgentBody (attempts 1).1 (attempts 1).2 = .error e1 →
        runAgentBody (attempts 2).1 (attempts 2).2 = .error e2 →
        runAgentBody (attempts 3).1 (attempts 3).2 = .ok v →
        run_agent_sync attempts = .ok v)
    ∧ (∀ (attempts : Nat → CallOutcome ε α × Except ε α) (e1 e2 e3 : ε),
        runAgentBody (attempts 1).1 (attempts 1).2 = .error e1 →
        runAgentBody (attempts 2).1 (attempts 2).2 = .error e2 →
        runAgentBody (attempts 3).1 (attempts 3).2 = .error e3 →
        run_agent_sync attempts = .error e3)
    ∧ (∀ (f g : Nat → Except ε α), (∀ k, 1 ≤ k → k ≤ 3 → f k = g k) →
        retryStopAfter3 f = retryStopAfter3 g)
    ∧ (∀ n : Nat, 4 ≤ waitExponential 1 4 10 n ∧ waitExponential 1 4 10 n ≤ 10) := by
  refine ⟨?_, ?_, ?_, ?_⟩
  · intro attempts e1 e2 v h1 h2 h3
    simp [run_agent_sync, retryStopAfter3, retryGo, h1, h2, h3]
  · intro attempts e1 e2 e3 h1 h2 h3
    simp [run_agent_sync, retryStopAfter3, retryGo, h1, h2, h3]
  · intro f g h
    simp only [retryStopAfter3, retryGo]
    rw [h 1 (by omega) (by omega), h 2 (by omega) (by omega),
      h 3 (by omega) (by omega)]
  · intro n
    constructor
    · simp [waitExponential]
    · have h2 : 0 < 2 ^ n := Nat.pos_pow_of_pos n (by omega)
      simp only [waitExponential]
      omega

/-- C4 witness: with a body that raises on attempts 1 and 2 and succeeds
on attempt 3, `_run_agent_sync` returns the success; with a body that
raises on every attempt, it re-raises the attempt-3 exception; the first
backoff delay is within [4, 10]. -/
theorem run_agent_sync_retry_witness :
    run_agent_sync (fun n =>
        if n = 3 then (CallOutcome.ok 42, Except.ok 42)
        else (CallOutcome.err "boom", Except.error "boom")) = Except.ok 42
    ∧ run_agent_sync (fun n : Nat =>
        ((CallOutcome.err (α := Nat) (toString n ++ ": fail")),
          Except.error (toString n ++ ": fail"))) = Except.error "3: fail"
    ∧ 4 ≤ waitExponential 1 4 10 1 ∧ waitExponential 1 4 10 1 ≤ 10 :=
  ⟨(run_agent_sync_retry (ε := String) (α := Nat)).1 _ "boom" "boom" 42 rfl rfl rfl,
   (run_agent_sync_retry (ε := String) (α := Nat)).2.1 _ "1: fail" "2: fail" "3: fail"
     rfl rfl rfl,
   ((run_agent_sync_retry (ε := String) (α := Nat)).2.2.2 1).1,
   ((run_agent_sync_retry (ε := String) (α := Nat)).2.2.2 1).2⟩

/-- Reduction of the `Except` monad's bind on a success value. -/
theorem exceptBindOk {ε α β : Type} (a : α) (f : α → Except ε β) :
    (Except.ok (ε := ε) a >>= f) = f a := rfl

/-- Reduction of the `Except` monad's bind on an error value. -/
theorem exceptBindError {ε α β : Type} (e : ε) (f : α → Except ε β) :
    (Except.error (α := α) e >>= f) = Except.error (α := β) e := rfl

/-- C8: when either resolved backend configuration's required environment
credential is absent (unset or empty), `StartupEvaluator.__init__` raises
immediately, so construction fails with an error; conversely a
successfully constructed evaluator has both credentials present — and the
`evaluate` model takes no environment at all — so a missing-credential
error can never first surface inside `evaluate()`. -/
theorem construction_checks_credentials :
    (∀ (env : String → Option String) (em vm pv : String) (ec vc : ModelConfig),
        get_model_config em = .ok ec → get_model_config vm = .ok vc →
        (credMissing env ec || credMissing env vc) = true →
        ∃ msg, mkStartupEvaluator env em vm pv = .error msg)
    ∧ (∀ (env : String → Option String) (em vm pv : String) (ev : StartupEvaluator),
        mkStartupEvaluator env em vm pv = .ok ev →
        credMissing env ev.extraction_config = false
        ∧ credMissing env ev.evaluation_config = false) := by
  constructor
  · intro env em vm pv ec vc hec hvc hmiss
    cases hme : credMissing env ec with
    | true =>
      exact ⟨"ValueError: " ++ ec.env_var ++ " não encontrada.",
        by simp [mkStartupEvaluator, hec, hvc, exceptBindOk, hme]⟩
    | false =>
      have hmv : credMissing env vc = true := by
        cases h : credMissing env vc with
        | true => rfl
        | false => rw [hme, h] at hmiss; simp at hmiss
      exact ⟨"ValueError: " ++ vc.env_var ++ " não encontrada.",
        by simp [mkStartupEvaluator, hec, hvc, exceptBindOk, hme, hmv]⟩
  · intro env em vm pv ev hok
    cases hec : get_model_config em with
    | error e => simp [mkStartupEvaluator, hec, exceptBindError] at hok
    | ok ec =>
      cases hvc : get_model_config vm with
      | error e => simp [mkStartupEvaluator, hec, hvc, exceptBindOk, exceptBindError] at hok
      | ok vc =>
        cases hme : credMissing env ec with
        | true => simp [mkStartupEvaluator, hec, hvc, exceptBindOk, hme] at hok
        | false =>
          cases hmv : credMissing env vc with
          | true => simp [mkStartupEvaluator, hec, hvc, exceptBindOk, hme, hmv] at hok
          | false =>
            have hev : ev.extraction_config = ec ∧ ev.evaluation_config = vc := by
              have h2 := hok
              simp [mkStartupEvaluator, hec, hvc, exceptBindOk, hme, hmv] at h2
              rw [← h2]
              exact ⟨rfl, rfl⟩
            rw [hev.1, hev.2]
            exact ⟨hme, hmv⟩

/-- A constructed evaluator value used by the concrete runs below:
both models `gemini-flash`, prompt version `"v2"`. -/
def sampleEvaluator : StartupEvaluator :=
  { extraction_config := gemini_flash,
    evaluation_config := gemini_flash,
    extraction_model_name := "gemini-flash",
    evaluation_model_name := "gemini-flash",
    prompt_version := "v2",
    prompts := .promptV2 }

/-- C8 witness: with no environment variable set, constructing over
`gemini-flash`/`gemini-flash` fails with an error; with `GEMINI_API_KEY`
set, construction succeeds and both credentials are indeed present. -/
theorem construction_checks_credentials_witness :
    (∃ msg, mkStartupEvaluator (fun _ => none) "gemini-flash" "gemini-flash" "v2"
      = .error msg)
    ∧ (credMissing (fun _ => some "key") sampleEvaluator.extraction_config = false
        ∧ credMissing (fun _ => some "key") sampleEvaluator.evaluation_config = false) :=
  ⟨construction_checks_credentials.1 (fun _ => none) "gemini-flash" "gemini-flash"
      "v2" gemini_flash gemini_flash rfl rfl (by decide),
   construction_checks_credentials.2 (fun _ => some "key") "gemini-flash"
      "gemini-flash" "v2" sampleEvaluator rfl⟩

/-- C5: the consistency check is advisory only.  For every evaluation
with `nota ≥ 4` and fewer than 2 of the three critical criteria
satisfied, `evaluate` logs a warning; under prompt version `v1` a
non-local startup with a positive score is likewise flagged; and in every
case `evaluate` returns normally (the check is a total function producing
log events, not exceptions), with the record carrying the model's stated
score unchanged. -/
theorem consistency_check_advisory (ev : StartupEvaluator) (s0 : UsageCounters)
    (er : AgentResult PitchDeckInfo) (vr : AgentResult AvaliacaoStartup) :
    (4 ≤ vr.output.nota → atendidosCriticos vr.output < 2 →
        (evaluate ev s0 er vr).warnings ≠ [])
    ∧ (ev.prompt_version = "v1" →
        vr.output.criterios_atendidos.localizacao.atendido = false →
        0 < vr.output.nota → (evaluate ev s0 er vr).warnings ≠ [])
    ∧ (evaluate ev s0 er vr).record.avaliacao = vr.output
    ∧ (evaluate ev s0 er vr).record.avaliacao.nota = vr.output.nota := by
  refine ⟨?_, ?_, rfl, rfl⟩
  · intro hnota hcrit
    have h2 : (decide (4 ≤ vr.output.nota)
        && decide (atendidosCriticos vr.output < 2)) = true := by
      simp [hnota, hcrit]
    simp [evaluate, validate_evaluation_consistency, h2]
  · intro hpv hloc hnota
    have h1 : (!vr.output.criterios_atendidos.localizacao.atendido
        && decide (0 < vr.output.nota) && (ev.prompt_version == "v1")) = true := by
      simp [hpv, hloc, hnota]
    simp [evaluate, validate_evaluation_consistency, h1]

/-- An evaluation result with score 5 but only one critical criterion
satisfied, used by the concrete runs below. -/
def sampleAvaliacao : AvaliacaoStartup :=
  { analise_preliminar := "analise",
    nota := 5,
    estagio_identificado := .seed,
    justificativa := "justificativa",
    pontos_positivos := ["equipe"],
    pontos_negativos := ["sem dados de receita"],
    criterios_atendidos :=
      { localizacao := ⟨false, "não informado"⟩,
        estagio_adequado := ⟨false, "não informado"⟩,
        metricas_financeiro := ⟨true, "MRR citado"⟩,
        produto_tracao := ⟨true, "usuários"⟩,
        equipe := ⟨true, "fundadores"⟩ } }

/-- An extracted-facts record used by the concrete runs below. -/
def sampleInfo : PitchDeckInfo :=
  { nome_startup := "Acme",
    localizacao := "Brasil",
    estagio := .seed,
    receita_anual := some "R$ 5M" }

/-- C5 witness: a score-5 evaluation with only 1 of the 3 critical
criteria satisfied is flagged with a warning, yet `evaluate` still
returns the record with score 5. -/
theorem consistency_check_advisory_witness :
    (evaluate sampleEvaluator ⟨7, 8, 9⟩ ⟨sampleInfo, none⟩
        ⟨sampleAvaliacao, none⟩).warnings ≠ []
    ∧ (evaluate sampleEvaluator ⟨7, 8, 9⟩ ⟨sampleInfo, none⟩
        ⟨sampleAvaliacao, none⟩).record.avaliacao.nota = 5 :=
  ⟨(consistency_check_advisory sampleEvaluator ⟨7, 8, 9⟩ ⟨sampleInfo, none⟩
      ⟨sampleAvaliacao, none⟩).1 (by decide) (by decide),
   (consistency_check_advisory sampleEvaluator ⟨7, 8, 9⟩ ⟨sampleInfo, none⟩
      ⟨sampleAvaliacao, none⟩).2.2.2⟩

/-- The contribution of one stage's usage object to the totals:
each counter read with `or 0`, a `None` usage contributing nothing. -/
def usageContrib (u : Option RunUsage) : UsageCounters :=
  match u with
  | none => ⟨0, 0, 0⟩
  | some u => ⟨u.input_tokens.getD 0, u.output_tokens.getD 0, u.requests.getD 0⟩

/-- C2 (amended): each `evaluate` call resets the usage counters at its
start — its outcome is independent of the counters left by earlier calls
— and accumulates the usage of both the extraction and the evaluation
stage; the usage read-out carried in the returned record holds exactly
the keys `input_tokens`, `output_tokens`, `total_tokens` (their sum) and
`requests`, with the per-stage sums — and no estimated cost. -/
theorem evaluate_usage_accounting (ev : StartupEvaluator)
    (s0 s0' : UsageCounters) (er : AgentResult PitchDeckInfo)
    (vr : AgentResult AvaliacaoStartup) :
    evaluate ev s0 er vr = evaluate ev s0' er vr
    ∧ (evaluate ev s0 er vr).counters =
        ⟨(usageContrib er.usage).input_tokens + (usageContrib vr.usage).input_tokens,
         (usageContrib er.usage).output_tokens + (usageContrib vr.usage).output_tokens,
         (usageContrib er.usage).requests + (usageContrib vr.usage).requests⟩
    ∧ (evaluate ev s0 er vr).record.usage =
        [ ("input_tokens",
            (usageContrib er.usage).input_tokens + (usageContrib vr.usage).input_tokens),
          ("output_tokens",
            (usageContrib er.usage).output_tokens + (usageContrib vr.usage).output_tokens),
          ("total_tokens",
            ((usageContrib er.usage).input_tokens + (usageContrib vr.usage).input_tokens)
              + ((usageContrib er.usage).output_tokens
                  + (usageContrib vr.usage).output_tokens)),
          ("requests",
            (usageContrib er.usage).requests + (usageContrib vr.usage).requests) ] := by
  have hc : ∀ s0'' : UsageCounters, (evaluate ev s0'' er vr).counters =
      ⟨(usageContrib er.usage).input_tokens + (usageContrib vr.usage).input_tokens,
       (usageContrib er.usage).output_tokens + (usageContrib vr.usage).output_tokens,
       (usageContrib er.usage).requests + (usageContrib vr.usage).requests⟩ := by
    intro s0''
    cases heu : er.usage with
    | none =>
      cases hvu : vr.usage with
      | none => simp [evaluate, track_usage, reset_usage, usageContrib, heu, hvu]
      | some u => simp [evaluate, track_usage, reset_usage, usageContrib, heu, hvu]
    | some u =>
      cases hvu : vr.usage with
      | none => simp [evaluate, track_usage, reset_usage, usageContrib, heu, hvu]
      | some w => simp [evaluate, track_usage, reset_usage, usageContrib, heu, hvu]
  refine ⟨rfl, hc s0, ?_⟩
  simp [evaluate, get_usage] at hc ⊢
  rw [hc s0]
  simp [hc s0]

/-- C2 counterexample: in a concrete run the usage read-out of the
returned record carries exactly the four token/request keys and no
`estimated_cost_usd` entry — no cost is computed from the backend's
pricing, so the claim's cost clause fails. -/
theorem evaluate_usage_no_cost_key :
    ((evaluate sampleEvaluator ⟨7, 8, 9⟩
        ⟨sampleInfo, some { input_tokens := some 100, output_tokens := some 20,
                            requests := some 1 }⟩
        ⟨sampleAvaliacao, some { input_tokens := some 300, output_tokens := some 50,
                                 requests := some 2 }⟩).record.usage).lookup
      "estimated_cost_usd" = none
    ∧ ((evaluate sampleEvaluator ⟨7, 8, 9⟩
        ⟨sampleInfo, some { input_tokens := some 100, output_tokens := some 20,
                            requests := some 1 }⟩
        ⟨sampleAvaliacao, some { input_tokens := some 300, output_tokens := some 50,
                                 requests := some 2 }⟩).record.usage).map Prod.fst =
      ["input_tokens", "output_tokens", "total_tokens", "requests"]
    ∧ (evaluate sampleEvaluator ⟨7, 8, 9⟩
        ⟨sampleInfo, some { input_tokens := some 100, output_tokens := some 20,
                            requests := some 1 }⟩
        ⟨sampleAvaliacao, some { input_tokens := some 300, output_tokens := some 50,
                                 requests := some 2 }⟩).record.usage =
      [("input_tokens", 400), ("output_tokens", 70),
       ("total_tokens", 470), ("requests", 3)] := by
  refine ⟨?_, ?_, ?_⟩ <;> rfl

/-- On a dumped plain string, the code's per-field test coincides with
the spec-side filled test. -/
theorem filledCond_str (s : String) :
    filledCond (.str s) = specFilled (some s) := rfl

/-- On a dumped optional string, the code's per-field test coincides with
the spec-side filled test. -/
theorem filledCond_optVal (v : Option String) :
    filledCond (optVal v) = specFilled v := by
  cases v <;> rfl

/-- On a dumped `Estagio` member the code's per-field test is **always**
true: the member is truthy, and `str(member).lower()` is of the form
`"estagio.<name>"`, which never appears in the sentinel list — even for
`Estagio.INDEFINIDO`. -/
theorem filledCond_enum (e : Estagio) : filledCond (.enumE e) = true := by
  cases e <;> decide

/-- Spec-side, the stage field holds a non-sentinel value exactly when it
is not the sentinel stage `indefinido`. -/
theorem specFilled_val (e : Estagio) :
    specFilled (some e.val) = (if e = .indefinido then false else true) := by
  cases e <;> decide

/-- The code's `has_name` test is the spec-side filled test on the name. -/
theorem has_name_eq_specFilled (info : PitchDeckInfo) :
    has_name info = specFilled (some info.nome_startup) := rfl

/-- Splitting `_validate_extraction`'s filled-field count: the loop over
all of `model_dump()` counts the name (exactly when `has_name` holds),
every spec-side-filled non-name field, **and additionally** the stage
field when it is the sentinel stage `indefinido` (which the spec-side
count excludes but the code, stringifying the enum member, counts). -/
theorem filled_fields_split (info : PitchDeckInfo) :
    ((modelDump info).filter (fun p => filledCond p.2)).length
    = (if has_name info = true then 1 else 0)
      + (specNonNameFilledCount info
          + (if info.estagio = .indefinido then 1 else 0)) := by
  rw [← List.countP_eq_length_filter]
  unfold specNonNameFilledCount
  rw [← List.countP_eq_length_filter]
  simp only [modelDump, specNonNameValues, List.countP_cons, List.countP_nil,
    filledCond_str, filledCond_optVal, filledCond_enum, specFilled_val,
    has_name_eq_specFilled]
  cases info.estagio <;> simp <;> omega

/-- C1 (amended): `_validate_extraction` judges an extraction valid iff
the name is valid **and** at least 2 (not 3) non-name fields hold a
non-sentinel value — where the stage field additionally always counts
for the code even when it is the sentinel stage `indefinido`, because the
code tests `str(value).lower()` which for an enum member is
`"estagio.<name>"`.  Consequently: an empty or sentinel name makes the
extraction low quality regardless of the other fields, and a valid name
plus 3 non-sentinel non-name fields is judged valid (both as claimed),
but a valid name plus only 2 non-sentinel non-name fields is **also**
judged valid, contrary to the claimed boundary at 3: the loop counts the
name field itself. -/
theorem validate_extraction_characterization (info : PitchDeckInfo) :
    (has_name info = false → validate_extraction info = false)
    ∧ (validate_extraction info = true ↔
        has_name info = true ∧
          2 ≤ specNonNameFilledCount info
              + (if info.estagio = .indefinido then 1 else 0))
    ∧ (has_name info = true → 3 ≤ specNonNameFilledCount info →
        validate_extraction info = true)
    ∧ (has_name info = true → 2 ≤ specNonNameFilledCount info →
        validate_extraction info = true) := by
  have hs := filled_fields_split info
  have key : validate_extraction info = true ↔
      has_name info = true ∧
        2 ≤ specNonNameFilledCount info
            + (if info.estagio = .indefinido then 1 else 0) := by
    constructor
    · intro h
      have h1 : has_name info = true := by
        cases hh : has_name info with
        | true => rfl
        | false => rw [validate_extraction] at h; simp [hh] at h
      refine ⟨h1, ?_⟩
      have h3 : 3 ≤ ((modelDump info).filter (fun p => filledCond p.2)).length := by
        rw [validate_extraction] at h
        simp [h1] at h
        exact h
      rw [hs, h1] at h3
      simp at h3
      omega
    · rintro ⟨h1, h2⟩
      rw [validate_extraction]
      simp [h1, hs, h1]
      omega
  refine ⟨?_, key, ?_, ?_⟩
  · intro h
    cases hval : validate_extraction info with
    | false => rfl
    | true =>
      have := (key.mp hval).1
      rw [h] at this
      exact absurd this (by simp)
  · intro h1 h2
    exact key.mpr ⟨h1, by omega⟩
  · intro h1 h2
    exact key.mpr ⟨h1, by omega⟩

/-- A facts record with a valid name and exactly 2 non-sentinel non-name
fields (`localizacao` and `receita_anual`; the stage is the sentinel
`indefinido`). -/
def infoTwoFields : PitchDeckInfo :=
  { nome_startup := "Acme",
    localizacao := "Brasil",
    estagio := .indefinido,
    receita_anual := some "R$ 5M" }

/-- C1 counterexample: a record with a valid name and only 2 non-sentinel
non-name fields is judged **valid** by `_validate_extraction` — the loop
also counts the name (and the sentinel stage member), reaching the
threshold of 3 — where the claim says it must be judged low quality. -/
theorem validate_extraction_boundary_counterexample :
    has_name infoTwoFields = true
    ∧ specNonNameFilledCount infoTwoFields = 2
    ∧ validate_extraction infoTwoFields = true := by decide

/-- A facts record with an empty name and two filled non-name fields. -/
def infoNoName : PitchDeckInfo :=
  { nome_startup := "",
    localizacao := "Brasil",
    estagio := .seed,
    receita_anual := some "R$ 5M",
    tamanho_rodada := some "R$ 8M" }

/-- C1 witness: a valid name plus 3 non-sentinel non-name fields is
judged valid; an empty name makes the extraction low quality. -/
theorem validate_extraction_characterization_witness :
    validate_extraction sampleInfo = true
    ∧ validate_extraction infoNoName = false :=
  ⟨(validate_extraction_characterization sampleInfo).2.2.1 (by decide) (by decide),
   (validate_extraction_characterization infoNoName).1 (by decide)⟩

/-- A `filterMap` whose function refines `g` under a guard yields an
order-preserving selection (a sublist) of `l.map g`. -/
theorem filterMap_sublist_map {α β : Type} (f : α → Option β) (g : α → β)
    (h : ∀ a b, f a = some b → b = g a) (l : List α) :
    (l.filterMap f).Sublist (l.map g) := by
  induction l with
  | nil => simp
  | cons a l ih =>
    cases hfa : f a with
    | none =>
      rw [List.filterMap_cons, hfa, List.map_cons]
      exact ih.cons (g a)
    | some b =>
      have hb : b = g a := h a b hfa
      subst hb
      rw [List.filterMap_cons, hfa, List.map_cons]
      exact ih.cons₂ (g a)

/-- A value that passes `_format_pdf_info`'s guard renders to a string
that is neither empty nor the sentinel literal `"indefinido"`. -/
theorem fstr_of_rendered (v : PyVal) (ht : v.truthy = true)
    (hi : v.eqString "indefinido" = false) :
    v.fstr ≠ "" ∧ v.fstr ≠ "indefinido" := by
  cases v with
  | str s =>
    simp [PyVal.truthy] at ht
    simp [PyVal.eqString] at hi
    exact ⟨ht, hi⟩
  | enumE e =>
    cases e <;> simp_all [PyVal.eqString, PyVal.fstr, Estagio.val]
  | pyNone => simp [PyVal.truthy] at ht

/-- C6: `_format_pdf_info` renders the qualifying fields, in
`PitchDeckInfo` declaration order (the rendered lines are an
order-preserving selection from the per-field renderings of
`model_dump()`); every rendered line comes from a dumped field that is
truthy and not equal to `"indefinido"`, carries the label
`field_name.replace('_', ' ').title()`, and its rendered value is never
the empty string or the sentinel `"indefinido"`; when no field
qualifies the result is the explicit no-information line. -/
theorem format_pdf_info_spec (info : PitchDeckInfo) :
    (formatLines info).Sublist
      ((modelDump info).map (fun p => "  - " ++ fieldLabel p.1 ++ ": " ++ p.2.fstr))
    ∧ (∀ line ∈ formatLines info,
        ∃ p, p ∈ modelDump info ∧ p.2.truthy = true
          ∧ p.2.eqString "indefinido" = false
          ∧ line = "  - " ++ fieldLabel p.1 ++ ": " ++ p.2.fstr
          ∧ p.2.fstr ≠ "" ∧ p.2.fstr ≠ "indefinido")
    ∧ (formatLines info = [] →
        format_pdf_info info = "  - Nenhuma informação extraída")
    ∧ (formatLines info ≠ [] →
        format_pdf_info info = String.intercalate "\n" (formatLines info)) := by
  refine ⟨?_, ?_, ?_, ?_⟩
  · apply filterMap_sublist_map
    intro p b hp
    rw [renderField] at hp
    by_cases hc : (p.2.truthy && !(p.2.eqString "indefinido")) = true
    · rw [if_pos hc] at hp
      exact ((Option.some.injEq _ _).mp hp).symm
    · rw [if_neg hc] at hp
      exact absurd hp (by simp)
  · intro line hline
    rw [formatLines, List.mem_filterMap] at hline
    obtain ⟨p, hp, hrender⟩ := hline
    rw [renderField] at hrender
    by_cases hc : (p.2.truthy && !(p.2.eqString "indefinido")) = true
    · rw [if_pos hc] at hrender
      have ht : p.2.truthy = true := by
        cases h1 : p.2.truthy <;> simp [h1] at hc ⊢
      have hi : p.2.eqString "indefinido" = false := by
        cases h2 : p.2.eqString "indefinido" <;> simp [h2] at hc ⊢
      have hfs := fstr_of_rendered p.2 ht hi
      exact ⟨p, hp, ht, hi, ((Option.some.injEq _ _).mp hrender).symm,
        hfs.1, hfs.2⟩
    · rw [if_neg hc] at hrender
      exact absurd hrender (by simp)
  · intro h
    rw [format_pdf_info, if_pos h]
  · intro h
    rw [format_pdf_info, if_neg h]

/-- A facts record with no renderable field: empty name and location,
sentinel stage, all optional fields absent. -/
def infoEmpty : PitchDeckInfo :=
  { nome_startup := "", localizacao := "", estagio := .indefinido }

/-- C6 witness: in a concrete record the line rendered for the startup
name is accounted for by a qualifying dumped field, and a record with no
qualifying field formats to the explicit no-information line. -/
theorem format_pdf_info_spec_witness :
    (∃ p, p ∈ modelDump sampleInfo ∧ p.2.truthy = true
      ∧ p.2.eqString "indefinido" = false
      ∧ "  - Nome Startup: Acme" = "  - " ++ fieldLabel p.1 ++ ": " ++ p.2.fstr
      ∧ p.2.fstr ≠ "" ∧ p.2.fstr ≠ "indefinido")
    ∧ format_pdf_info infoEmpty = "  - Nenhuma informação extraída" :=
  ⟨(format_pdf_info_spec sampleInfo).2.1 "  - Nome Startup: Acme" (by decide),
   (format_pdf_info_spec infoEmpty).2.2.1 (by decide)⟩

/-- A facts record holding the other extraction sentinels as field
values: `tracao_metricas = "desconhecido"` and the case variant
`modelo_negocio = "Indefinido"`. -/
def infoC10 : PitchDeckInfo :=
  { nome_startup := "Acme",
    localizacao := "Brasil",
    estagio := .indefinido,
    tracao_metricas := some "desconhecido",
    modelo_negocio := some "Indefinido" }

/-- C10: `_format_pdf_info` filters only the exact lowercase string
`"indefinido"` (and falsy values): the sentinels `"desconhecido"` and
the case variant `"Indefinido"` are rendered verbatim as
`- Label: value` lines of the prompt summary, even though the
extraction-quality check's per-field test treats exactly these values as
sentinels (case-insensitively) and so counts neither. -/
theorem format_renders_other_sentinels :
    "  - Tracao Metricas: desconhecido" ∈ formatLines infoC10
    ∧ "  - Modelo Negocio: Indefinido" ∈ formatLines infoC10
    ∧ sentinels.contains (pyLower "desconhecido") = true
    ∧ sentinels.contains (pyLower "Indefinido") = true
    ∧ filledCond (.str "desconhecido") = false
    ∧ filledCond (.str "Indefinido") = false := by decide
